import Mathlib

/-!
Shallow embedding of the NanoLog logging core (nlog.c, nlog.h, nlog_config.h).

Strings are modelled as lists of characters (`CStr`), so that C's
size-bounded `snprintf`-style writes become `List.take (size - 1)`:
`snprintf(buf, N, ...)` stores at most `N - 1` characters plus a NUL
terminator, hence the stored string is the first `N - 1` characters of the
full rendering.  The variadic `printf` rendering of the user format string
is taken as an input (`msgRendered`, the full expansion the C formatting
primitive would produce); a small structural `sprintfRender` covering the
`%d` / `%s` conversions is provided for concrete instances.  Wall-clock
time (`time` / `strftime`) is external and enters as the `timestamp`
input.  The static `unsigned int log_id` is explicit state threaded
through `nlog_messagev`, with C's 32-bit unsigned wrap-around made
explicit as `% 4294967296`.
-/

/-- C strings, modelled without their NUL terminator. -/
abbrev CStr := List Char

/-- Literal helper: a Lean string literal as a `CStr`. -/
def str (s : String) : CStr := s.toList

/-- Configuration from nlog_config.h: `#define MAX_NLOG_MESSAGE 120`. -/
def MAX_NLOG_MESSAGE : Nat := 120

/-- Configuration from nlog_config.h: `#define MAX_TAG_SIZE 16`. -/
def MAX_TAG_SIZE : Nat := 16

/-- Configuration from nlog_config.h: `#define MAX_DESC_SIZE 128`. -/
def MAX_DESC_SIZE : Nat := 128

/-- `enum nlog_level` from nlog.h: NO_LEVEL, ERROR, WARNING, INFO, DEBUG. -/
inductive nlog_level where
  | NO_LEVEL
  | ERROR
  | WARNING
  | INFO
  | DEBUG
deriving DecidableEq, Repr

open nlog_level

/-- Numeric value of each enumerator, as assigned by C (first is 0). -/
def level_num : nlog_level → Nat
  | NO_LEVEL => 0
  | ERROR => 1
  | WARNING => 2
  | INFO => 3
  | DEBUG => 4

/-- Configuration from nlog_config.h: `#define NLOG_MIN_LEVEL ERROR`. -/
def NLOG_MIN_LEVEL : nlog_level := ERROR

/-- One past the largest value of a 32-bit C `unsigned int`; `log_id++`
wraps modulo this. -/
def UINT_WRAP : Nat := 4294967296

/-- `get_level_color` from nlog.c: the ANSI escape string returned for each
level, byte for byte (ERROR: `\x1b[31m`, WARNING: `\x1b[33m`,
INFO: `\x1b[34m`, DEBUG: `\x1b[32m`, default: `\x1b[0m`). -/
def get_level_color : nlog_level → CStr
  | ERROR => str "\x1b[31m"
  | WARNING => str "\x1b[33m"
  | INFO => str "\x1b[34m"
  | DEBUG => str "\x1b[32m"
  | NO_LEVEL => str "\x1b[0m"

/-- The ANSI escape sequence for red (`ESC [ 3 1 m`). -/
def ANSI_RED : CStr := str "\x1b[31m"

/-- The ANSI escape sequence for green (`ESC [ 3 2 m`). -/
def ANSI_GREEN : CStr := str "\x1b[32m"

/-- The ANSI escape sequence for yellow (`ESC [ 3 3 m`). -/
def ANSI_YELLOW : CStr := str "\x1b[33m"

/-- The ANSI escape sequence for blue (`ESC [ 3 4 m`). -/
def ANSI_BLUE : CStr := str "\x1b[34m"

/-- The ANSI reset sequence appended at line end when color is used. -/
def ANSI_RESET : CStr := str "\x1b[0m"

/-- `get_level_string` from nlog.c: the one-character level marker. -/
def get_level_string : nlog_level → CStr
  | ERROR => str "E"
  | WARNING => str "W"
  | INFO => str "I"
  | DEBUG => str "D"
  | NO_LEVEL => str "_"

/-- `new_execution_msg` from nlog.c, byte for byte. -/
def new_execution_msg : CStr := str "\n---------- NEW EXECUTION -----------\n\n"

/-- Decimal digit character (for rendering `%u` / `%d`). -/
def digitChar (n : Nat) : Char := Char.ofNat (48 + n)

/-- Fuel-indexed decimal rendering of a natural number. -/
def natReprAux : Nat → Nat → CStr
  | 0, _ => []
  | fuel + 1, n =>
    if n < 10 then [digitChar n]
    else natReprAux fuel (n / 10) ++ [digitChar (n % 10)]

/-- Decimal rendering of a natural number, most significant digit first,
as `printf("%u", n)` prints it. -/
def natRepr (n : Nat) : CStr := natReprAux (n + 1) n

/-- Decimal rendering of an integer, as `printf("%d", i)` prints it. -/
def intRepr (i : Int) : CStr :=
  if i < 0 then '-' :: natRepr i.natAbs else natRepr i.toNat

/-- A variadic argument to the C formatting primitive. -/
inductive PArg where
  | AInt (i : Int)
  | AStr (s : CStr)
deriving DecidableEq, Repr

/-- Rendering of a printf-style format string over its argument list,
covering the `%d`, `%s` and `%%` conversions (the full C primitive is
external; this suffices for the concrete instances in the claims). -/
def sprintfRender : CStr → List PArg → CStr
  | [], _ => []
  | '%' :: 'd' :: rest, PArg.AInt i :: args => intRepr i ++ sprintfRender rest args
  | '%' :: 's' :: rest, PArg.AStr s :: args => s ++ sprintfRender rest args
  | '%' :: '%' :: rest, args => '%' :: sprintfRender rest args
  | c :: rest, args => c :: sprintfRender rest args

/-- The two `#if` toggles of nlog_config.h that shape the final format
string in `nlog_messagev` (`ENABLE_TIMESTAMP`, `USE_COLOR`). -/
structure NlogConfig where
  enable_timestamp : Bool
  use_color : Bool
deriving DecidableEq, Repr

/-- The shipped nlog_config.h: `ENABLE_TIMESTAMP 1`, `USE_COLOR 0`. -/
def default_config : NlogConfig := ⟨true, false⟩

/-- The body of the final format common to all four `#if` variants of
nlog.c lines 150-166: `[%u] %s : [%s] [%s]? %s` applied to `log_id`,
`get_level_string level`, `TAG`, the optional timestamp, and the rendered
user-message buffer. -/
def composeInner (log_id : Nat) (level : nlog_level) (TAG timestamp buffer : CStr)
    (enable_timestamp : Bool) : CStr :=
  str "[" ++ natRepr log_id ++ str "] " ++ get_level_string level ++ str " : ["
    ++ TAG ++ str "]"
    ++ (if enable_timestamp then str " [" ++ timestamp ++ str "]" else [])
    ++ str " " ++ buffer

/-- The full (untruncated) rendering of the final message format chosen by
`ENABLE_TIMESTAMP` / `USE_COLOR` in nlog.c lines 150-166: with color the
line is `color ++ body ++ "\x1b[0m" ++ "\n"`, without it `body ++ "\n"`. -/
def compose (cfg : NlogConfig) (log_id : Nat) (level : nlog_level)
    (TAG timestamp buffer : CStr) : CStr :=
  if cfg.use_color then
    get_level_color level
      ++ composeInner log_id level TAG timestamp buffer cfg.enable_timestamp
      ++ ANSI_RESET ++ str "\n"
  else
    composeInner log_id level TAG timestamp buffer cfg.enable_timestamp ++ str "\n"

/-- `char buffer[MAX_NLOG_MESSAGE]` filled by
`vsnprintf(buffer, MAX_NLOG_MESSAGE, fmt, args)`: the first
`MAX_NLOG_MESSAGE - 1` characters of the rendered user message. -/
def msg_buffer (msgRendered : CStr) : CStr := msgRendered.take (MAX_NLOG_MESSAGE - 1)

/-- `char final_msg[512]` filled by `snprintf(final_msg, sizeof(final_msg), ...)`:
the first 511 characters of the composed line. -/
def final_msg (cfg : NlogConfig) (log_id : Nat) (level : nlog_level)
    (TAG timestamp msgRendered : CStr) : CStr :=
  (compose cfg log_id level TAG timestamp (msg_buffer msgRendered)).take 511

/-- Result of one `nlog_messagev` call: the value of the static `log_id`
after its increment, and the single string handed to
`nlog_backend_output`. -/
structure EmitResult where
  log_id : Nat
  output : CStr
deriving DecidableEq, Repr

/-- `nlog_messagev` from nlog.c: increment `log_id` (32-bit unsigned
wrap), render the user message into `buffer` (truncating to
`MAX_NLOG_MESSAGE - 1`), compose `final_msg` (truncating to 511), and if
`log_id == 1` hand `snprintf(tmp_msg, 600, "%s%s", new_execution_msg,
final_msg)` to the backend, otherwise `final_msg` alone.  `log_id_prev` is
the value of the static `log_id` before the call (0 at process start). -/
def nlog_messagev (cfg : NlogConfig) (log_id_prev : Nat) (level : nlog_level)
    (TAG msgRendered timestamp : CStr) : EmitResult :=
  let log_id := (log_id_prev + 1) % UINT_WRAP
  let fm := final_msg cfg log_id level TAG timestamp msgRendered
  if log_id = 1 then ⟨log_id, (new_execution_msg ++ fm).take 599⟩
  else ⟨log_id, fm⟩

/-- Value of the static `log_id` after `n` calls to `nlog_messagev`
(starting from its initializer 0). -/
def counterAfter : Nat → Nat
  | 0 => 0
  | n + 1 => (counterAfter n + 1) % UINT_WRAP

/-- `dev_err` from nlog.h (header variant with the error-result type). -/
inductive dev_err where
  | DEVICE_OK
  | DEVICE_ERROR
deriving DecidableEq, Repr

/-- `err_t` from nlog.h: result code plus bounded tag and description. -/
structure err_t where
  res : dev_err
  tag : CStr
  desc : CStr
deriving DecidableEq, Repr

/-- `CREATE_ERROR` from nlog.h:
`strncpy(_error.tag, _tag, MAX_TAG_SIZE - 1); _error.tag[MAX_TAG_SIZE - 1] = '\0';`
stores the first `MAX_TAG_SIZE - 1` characters of the tag, and
`snprintf(_error.desc, MAX_DESC_SIZE, _fmt, ...)` stores the first
`MAX_DESC_SIZE - 1` characters of the rendered description. -/
def CREATE_ERROR (res : dev_err) (tagArg descRendered : CStr) : err_t :=
  ⟨res, tagArg.take (MAX_TAG_SIZE - 1), descRendered.take (MAX_DESC_SIZE - 1)⟩

/-- File-output settings from nlog_config.h: `LOG_FILE_OUTPUT_PATH`. -/
def LOG_FILE_OUTPUT_PATH : CStr := str "LogOutput/"

/-- File-output settings from nlog_config.h: `LOG_FILE_OUTPUT_NAME`. -/
def LOG_FILE_OUTPUT_NAME : CStr := str "log"

/-- File-output settings from nlog_config.h: `LOG_FILE_OUTPUT_FORMAT`
(`_TEXT_`, i.e. `"txt"`). -/
def LOG_FILE_OUTPUT_FORMAT : CStr := str "txt"

/-- Oracle for the file-system calls of the file backend: whether
`_access(LOG_FILE_OUTPUT_PATH, 0) == 0` (directory exists), whether
`_mkdir` would succeed, and whether `fopen(full_path, "a")` returns a
non-NULL handle. -/
structure FileSys where
  dir_exists : Bool
  mkdir_ok : Bool
  fopen_ok : Bool
deriving DecidableEq, Repr

/-- Observable effects of one file-backend dispatch: the resolved path,
whether `_mkdir` was attempted, the `perror` diagnostics emitted, and the
strings written to the file via `fputs`. -/
structure FileBackendResult where
  full_path : CStr
  mkdir_attempted : Bool
  diagnostics : List CStr
  writes : List CStr
deriving DecidableEq, Repr

/-- The `NLOG_OUTPUT == 2` branch of `nlog_backend_output` from nlog.c:
build `full_path` by `snprintf(full_path, 256, "%s%s.%s", path, name, format)`;
if the directory does not exist, attempt `_mkdir` and `perror` on failure;
then `fopen(full_path, "a")` and, only if it succeeds, `fputs(msg)` and
`fclose`.  The function returns nothing to its caller in C; here every
observable effect is collected in the result and no error component
exists. -/
def nlog_backend_output_file (fs : FileSys) (msg : CStr) : FileBackendResult :=
  let full_path := (LOG_FILE_OUTPUT_PATH ++ LOG_FILE_OUTPUT_NAME ++ str "."
    ++ LOG_FILE_OUTPUT_FORMAT).take 255
  let mkdir_attempted := !fs.dir_exists
  let diagnostics :=
    if !fs.dir_exists && !fs.mkdir_ok then [str "Failed to create output directory"] else []
  let writes := if fs.fopen_ok then [msg] else []
  ⟨full_path, mkdir_attempted, diagnostics, writes⟩

/-- The static `log_id` after `n` calls is `n` reduced modulo the 32-bit
unsigned wrap. -/
theorem counterAfter_eq (n : Nat) : counterAfter n = n % UINT_WRAP := by
  induction n with
  | zero => rfl
  | succ k ih =>
    simp only [counterAfter, ih, UINT_WRAP]
    omega

/-- The composed line is never empty: every format variant ends in a
newline character. -/
theorem compose_length_pos (cfg : NlogConfig) (log_id : Nat) (l : nlog_level)
    (t ts b : CStr) : 0 < (compose cfg log_id l t ts b).length := by
  have h1 : (str "\n").length = 1 := rfl
  cases hc : cfg.use_color <;>
    simp [compose, hc, List.length_append, h1]

/-- `final_msg` respects the 511-character bound of `char final_msg[512]`. -/
theorem final_msg_length_le (cfg : NlogConfig) (log_id : Nat) (l : nlog_level)
    (t ts m : CStr) : (final_msg cfg log_id l t ts m).length ≤ 511 := by
  simp [final_msg, List.length_take]

/-- `final_msg` is never the empty string. -/
theorem final_msg_ne_nil (cfg : NlogConfig) (log_id : Nat) (l : nlog_level)
    (t ts m : CStr) : final_msg cfg log_id l t ts m ≠ [] := by
  apply List.ne_nil_of_length_pos
  unfold final_msg
  rw [List.length_take]
  have := compose_length_pos cfg log_id l t ts (msg_buffer m)
  omega

/-- The 600-byte `tmp_msg` buffer never truncates: banner (39 bytes) plus
`final_msg` (at most 511 bytes) always fits. -/
theorem banner_append_take (fm : CStr) (h : fm.length ≤ 511) :
    (new_execution_msg ++ fm).take 599 = new_execution_msg ++ fm := by
  apply List.take_of_length_le
  have hb : new_execution_msg.length = 39 := by decide
  rw [List.length_append, hb]
  omega

/-- The `log_id` reported by a call is the incremented (wrapped) counter,
regardless of which output branch was taken. -/
theorem nlog_messagev_log_id (cfg : NlogConfig) (st : Nat) (l : nlog_level)
    (t m ts : CStr) :
    (nlog_messagev cfg st l t m ts).log_id = (st + 1) % UINT_WRAP := by
  simp only [nlog_messagev]
  split <;> rfl

/-- When the incremented counter is 1 the backend receives the banner
followed by the final message, as one string. -/
theorem nlog_messagev_output_first (cfg : NlogConfig) (st : Nat) (l : nlog_level)
    (t m ts : CStr) (h : (st + 1) % UINT_WRAP = 1) :
    (nlog_messagev cfg st l t m ts).output =
      new_execution_msg ++ final_msg cfg 1 l t ts m := by
  have hfm := final_msg_length_le cfg 1 l t ts m
  simp [nlog_messagev, h, banner_append_take _ hfm]

/-- When the incremented counter is not 1 the backend receives exactly the
final message. -/
theorem nlog_messagev_output_rest (cfg : NlogConfig) (st : Nat) (l : nlog_level)
    (t m ts : CStr) (h : (st + 1) % UINT_WRAP ≠ 1) :
    (nlog_messagev cfg st l t m ts).output =
      final_msg cfg ((st + 1) % UINT_WRAP) l t ts m := by
  simp [nlog_messagev, h]

/-- Claim C1: evaluation at the failing input.  `NO_LEVEL` is strictly
below the configured minimum level `NLOG_MIN_LEVEL = ERROR`, yet
`nlog_messagev` with the shipped configuration still increments `log_id`
(to 1) and still hands a non-empty string to the backend: the code
contains no level gate at all, contradicting the claim (and the
documentation of `NLOG_MIN_LEVEL` in nlog_config.h). -/
theorem C1_no_level_gate :
    level_num NO_LEVEL < level_num NLOG_MIN_LEVEL ∧
    (nlog_messagev default_config 0 NO_LEVEL (str "TAG") (str "hello")
      (str "2025-04-30 12:00:00")).log_id = 1 ∧
    (nlog_messagev default_config 0 NO_LEVEL (str "TAG") (str "hello")
      (str "2025-04-30 12:00:00")).output ≠ [] := by
  refine ⟨by decide, by decide, by decide⟩

/-- Claim C2 counterexample: after exactly 2^32 calls the 32-bit counter
has wrapped to 0, strictly below its value after 2^32 - 1 calls, so the
displayed sequence number of call 2^32 is 0, not 2^32: the counter is not
"never reset or decremented" and the displayed numbers are not 1, 2, 3,
... for all call sequences. -/
theorem C2_counterexample :
    counterAfter 4294967295 = 4294967295 ∧
    counterAfter 4294967296 = 0 ∧
    counterAfter 4294967296 < counterAfter 4294967295 ∧
    (4294967296 : Nat) ≠ 0 := by
  have h1 : counterAfter 4294967295 = 4294967295 := by
    rw [counterAfter_eq]; norm_num [UINT_WRAP]
  have h2 : counterAfter 4294967296 = 0 := by
    rw [counterAfter_eq]; norm_num [UINT_WRAP]
  exact ⟨h1, h2, by rw [h1, h2]; norm_num, by norm_num⟩

/-- Claim C2 as amended: `log_id` starts at 0, each call increments it by
exactly 1 modulo 2^32, and the displayed sequence numbers are 1, 2, 3, ...
in call order for the first 2^32 - 1 calls (after which the counter wraps
to 0). -/
theorem C2_counter_increments :
    counterAfter 0 = 0 ∧
    (∀ n : Nat, counterAfter (n + 1) = (counterAfter n + 1) % UINT_WRAP) ∧
    (∀ n : Nat, 1 ≤ n → n < UINT_WRAP → counterAfter n = n) := by
  refine ⟨rfl, fun n => rfl, fun n h1 h2 => ?_⟩
  rw [counterAfter_eq]
  exact Nat.mod_eq_of_lt h2

/-- Witness for claim C2's theorem at a concrete call count. -/
theorem C2_witness : counterAfter 3 = 3 :=
  C2_counter_increments.2.2 3 (by decide) (by decide)

/-- Claim C3 counterexample: after 2^32 calls the counter is back at 0, so
call number 2^32 + 1 — which is not the first call — again sees
`log_id == 1` and again receives the new-execution banner: the banner does
not precede only the first emission. -/
theorem C3_counterexample :
    counterAfter 4294967296 = 0 ∧
    (nlog_messagev default_config (counterAfter 4294967296) ERROR (str "TAG")
      (str "m") (str "2025-04-30 12:00:00")).output =
      new_execution_msg ++ final_msg default_config 1 ERROR (str "TAG")
        (str "2025-04-30 12:00:00") (str "m") ∧
    (4294967296 + 1 : Nat) ≠ 1 := by
  have h : counterAfter 4294967296 = 0 := by
    rw [counterAfter_eq]; norm_num [UINT_WRAP]
  refine ⟨h, ?_, by norm_num⟩
  rw [h]
  decide

/-- Claim C3 as amended: the banner is prepended exactly to those
emissions whose incremented (wrapped) counter equals 1 — the first call of
the process, and, after counter wrap, again every 2^32 calls; when
prepended it is delivered together with the formatted line as one single
backend string; within the first 2^32 calls only call 1 carries the
banner. -/
theorem C3_banner_first_only (cfg : NlogConfig) (st : Nat) (l : nlog_level)
    (t m ts : CStr) :
    ((nlog_messagev cfg st l t m ts).log_id = 1 →
      (nlog_messagev cfg st l t m ts).output =
        new_execution_msg ++ final_msg cfg 1 l t ts m) ∧
    ((nlog_messagev cfg st l t m ts).log_id ≠ 1 →
      (nlog_messagev cfg st l t m ts).output =
        final_msg cfg ((st + 1) % UINT_WRAP) l t ts m) ∧
    (∀ n : Nat, 2 ≤ n → n ≤ UINT_WRAP → counterAfter n ≠ 1) := by
  refine ⟨?_, ?_, ?_⟩
  · intro h
    rw [nlog_messagev_log_id] at h
    exact nlog_messagev_output_first cfg st l t m ts h
  · intro h
    rw [nlog_messagev_log_id] at h
    exact nlog_messagev_output_rest cfg st l t m ts h
  · intro n h2 hle
    rw [counterAfter_eq]
    simp only [UINT_WRAP] at hle ⊢
    omega

/-- Witness for claim C3's theorem: the first call of a process (previous
counter 0) delivers banner plus line as one string. -/
theorem C3_witness :
    (nlog_messagev ⟨false, false⟩ 0 ERROR (str "T") (str "m") []).output =
      new_execution_msg ++ final_msg ⟨false, false⟩ 1 ERROR (str "T") [] (str "m") :=
  (C3_banner_first_only ⟨false, false⟩ 0 ERROR (str "T") (str "m") []).1 (by decide)

/-- Claim C4: the level letters are E/W/I/D with `_` for the unmapped
level, and with timestamps and color disabled the first call with
level ERROR, tag `NET`, template `code %d` and argument 42 composes
exactly the line `[1] E : [NET] code 42\n` (the backend additionally
receives the one-time banner in front of that line, as the first call of
the process). -/
theorem C4_line_format :
    get_level_string ERROR = str "E" ∧
    get_level_string WARNING = str "W" ∧
    get_level_string INFO = str "I" ∧
    get_level_string DEBUG = str "D" ∧
    get_level_string NO_LEVEL = str "_" ∧
    sprintfRender (str "code %d") [PArg.AInt 42] = str "code 42" ∧
    final_msg ⟨false, false⟩ 1 ERROR (str "NET") []
      (sprintfRender (str "code %d") [PArg.AInt 42]) =
      str "[1] E : [NET] code 42\n" ∧
    (nlog_messagev ⟨false, false⟩ 0 ERROR (str "NET")
      (sprintfRender (str "code %d") [PArg.AInt 42]) []).output =
      new_execution_msg ++ str "[1] E : [NET] code 42\n" := by
  decide

/-- Claim C5: the rendered user message is truncated to
`MAX_NLOG_MESSAGE - 1` characters, the final line to 511 characters, the
string handed to the backend is never empty (the emission happens, it is
not rejected) and never exceeds the 599-character bound of `tmp_msg`. -/
theorem C5_bounded_truncation (cfg : NlogConfig) (st : Nat) (l : nlog_level)
    (t m ts : CStr) :
    (msg_buffer m).length ≤ MAX_NLOG_MESSAGE - 1 ∧
    msg_buffer m = m.take (MAX_NLOG_MESSAGE - 1) ∧
    (final_msg cfg ((st + 1) % UINT_WRAP) l t ts m).length ≤ 511 ∧
    (nlog_messagev cfg st l t m ts).output ≠ [] ∧
    (nlog_messagev cfg st l t m ts).output.length ≤ 599 := by
  refine ⟨?_, rfl, final_msg_length_le _ _ _ _ _ _, ?_, ?_⟩
  · simp [msg_buffer, MAX_NLOG_MESSAGE, List.length_take]
  · by_cases h : (st + 1) % UINT_WRAP = 1
    · rw [nlog_messagev_output_first cfg st l t m ts h]
      have hb : new_execution_msg ≠ [] := by decide
      intro hc
      exact hb (List.append_eq_nil.mp hc).1
    · rw [nlog_messagev_output_rest cfg st l t m ts h]
      exact final_msg_ne_nil _ _ _ _ _ _
  · by_cases h : (st + 1) % UINT_WRAP = 1
    · rw [nlog_messagev_output_first cfg st l t m ts h, List.length_append]
      have hb : new_execution_msg.length = 39 := by decide
      have hf := final_msg_length_le cfg 1 l t ts m
      omega
    · rw [nlog_messagev_output_rest cfg st l t m ts h]
      have hf := final_msg_length_le cfg ((st + 1) % UINT_WRAP) l t ts m
      omega

/-- Claim C6: evaluation showing the code-internal inconsistency.  ERROR
and WARNING map to red and yellow as claimed, but `get_level_color`
returns the ANSI blue escape (`\x1b[34m`) for INFO — its source comment
says GREEN — and the ANSI green escape (`\x1b[32m`) for DEBUG — its source
comment says BLUE.  The wrapping itself is as claimed: with color on, the
line is the level's escape prefix, then exactly the colorless body, then
the reset suffix before the newline. -/
theorem C6_color_swap :
    get_level_color ERROR = ANSI_RED ∧
    get_level_color WARNING = ANSI_YELLOW ∧
    get_level_color INFO = ANSI_BLUE ∧
    ANSI_BLUE ≠ ANSI_GREEN ∧
    get_level_color DEBUG = ANSI_GREEN ∧
    (∀ (f : Bool) (log_id : Nat) (l : nlog_level) (t ts b : CStr),
      compose ⟨f, true⟩ log_id l t ts b =
        get_level_color l ++ composeInner log_id l t ts b f
          ++ ANSI_RESET ++ str "\n" ∧
      compose ⟨f, false⟩ log_id l t ts b =
        composeInner log_id l t ts b f ++ str "\n") := by
  refine ⟨by decide, by decide, by decide, by decide, by decide,
    fun f log_id l t ts b => ⟨rfl, rfl⟩⟩

/-- Claim C7 counterexample: a 20-character tag — longer than
`MAX_TAG_SIZE = 16` — appears in full, untruncated, in the string handed
to the backend. -/
theorem C7_counterexample :
    (str "ABCDEFGHIJKLMNOPQRST").length > MAX_TAG_SIZE ∧
    (nlog_messagev ⟨false, false⟩ 1 ERROR (str "ABCDEFGHIJKLMNOPQRST")
      (str "m") []).output =
      str "[2] E : [" ++ str "ABCDEFGHIJKLMNOPQRST" ++ str "] m\n" := by
  decide

/-- Claim C7 as amended: `nlog_messagev` never truncates the tag to the
`MAX_TAG_SIZE` bound — the tag appears verbatim as a contiguous substring
of the composed line, and whenever the composed line fits the 511-byte
final buffer the line (tag included, however long) is emitted untruncated;
only the whole-line 511-byte truncation can ever cut a tag.  (Per-tag
truncation to `MAX_TAG_SIZE` exists only in `CREATE_ERROR`.) -/
theorem C7_tag_not_truncated (cfg : NlogConfig) (log_id : Nat) (l : nlog_level)
    (t ts m : CStr) :
    (∃ pre post, compose cfg log_id l t ts (msg_buffer m) = pre ++ t ++ post) ∧
    ((compose cfg log_id l t ts (msg_buffer m)).length ≤ 511 →
      final_msg cfg log_id l t ts m = compose cfg log_id l t ts (msg_buffer m)) := by
  constructor
  · refine ⟨(if cfg.use_color then get_level_color l else []) ++ str "["
        ++ natRepr log_id ++ str "] " ++ get_level_string l ++ str " : [",
      str "]" ++ (if cfg.enable_timestamp then str " [" ++ ts ++ str "]" else [])
        ++ str " " ++ msg_buffer m
        ++ (if cfg.use_color then ANSI_RESET ++ str "\n" else str "\n"), ?_⟩
    cases hc : cfg.use_color <;>
      simp [compose, composeInner, hc, List.append_assoc]
  · intro h
    unfold final_msg
    exact List.take_of_length_le h

/-- Witness for claim C7's theorem: with the 20-character tag the composed
line fits the final buffer, so the emitted line is the untruncated
composition. -/
theorem C7_witness :
    final_msg ⟨false, false⟩ 2 ERROR (str "ABCDEFGHIJKLMNOPQRST") [] (str "m") =
      compose ⟨false, false⟩ 2 ERROR (str "ABCDEFGHIJKLMNOPQRST") []
        (msg_buffer (str "m")) :=
  (C7_tag_not_truncated ⟨false, false⟩ 2 ERROR
    (str "ABCDEFGHIJKLMNOPQRST") [] (str "m")).2 (by decide)

/-- Claim C8 counterexample: when the directory exists but `fopen` fails,
the dispatch emits no diagnostic at all — `perror` guards only the
`_mkdir` call — while the write is skipped; this contradicts the claim
that an open failure is reported via a local diagnostic. -/
theorem C8_counterexample :
    (nlog_backend_output_file ⟨true, true, false⟩ (str "line")).writes = [] ∧
    (nlog_backend_output_file ⟨true, true, false⟩ (str "line")).diagnostics = [] := by
  decide

/-- Claim C8 as amended: every dispatch resolves the configured directory,
base name and extension to the path `LogOutput/log.txt`; directory
creation is attempted exactly when the directory is missing, and only a
failed creation attempt produces the (non-fatal) diagnostic; the message
is written exactly when `fopen` succeeds — an open failure silently skips
the write with no diagnostic; the dispatch returns no error component to
its caller in any case. -/
theorem C8_file_backend (fs : FileSys) (msg : CStr) :
    (nlog_backend_output_file fs msg).full_path = str "LogOutput/log.txt" ∧
    (nlog_backend_output_file fs msg).mkdir_attempted = !fs.dir_exists ∧
    ((nlog_backend_output_file fs msg).diagnostics ≠ [] ↔
      (fs.dir_exists = false ∧ fs.mkdir_ok = false)) ∧
    (nlog_backend_output_file fs msg).writes =
      (if fs.fopen_ok then [msg] else []) := by
  obtain ⟨d, k, f⟩ := fs
  cases d <;> cases k <;> cases f <;>
    refine ⟨rfl, rfl, ?_, rfl⟩ <;> simp [nlog_backend_output_file]

/-- Claim C9: `log_id` is 32-bit unsigned, so after exactly 2^32 calls it
has wrapped back to 0; the next call observes value 1 again and its
output again begins with the new-execution banner; the banner is otherwise
absent from calls 2 .. 2^32, and the displayed numbers equal the call
number only for the first 2^32 - 1 calls. -/
theorem C9_counter_wrap :
    counterAfter 4294967296 = 0 ∧
    counterAfter 4294967297 = 1 ∧
    (nlog_messagev default_config (counterAfter 4294967296) ERROR (str "T")
      (str "m") (str "2025-04-30 12:00:00")).output =
      new_execution_msg ++ final_msg default_config 1 ERROR (str "T")
        (str "2025-04-30 12:00:00") (str "m") ∧
    (∀ n : Nat, 2 ≤ n → n ≤ 4294967296 → counterAfter n ≠ 1) ∧
    (∀ n : Nat, 1 ≤ n → n < 4294967296 → counterAfter n = n) := by
  have h0 : counterAfter 4294967296 = 0 := by
    rw [counterAfter_eq]; norm_num [UINT_WRAP]
  refine ⟨h0, ?_, ?_, ?_, ?_⟩
  · rw [counterAfter_eq]; norm_num [UINT_WRAP]
  · rw [h0]; decide
  · intro n h2 hle
    rw [counterAfter_eq]
    simp only [UINT_WRAP]
    omega
  · intro n h1 hlt
    rw [counterAfter_eq]
    exact Nat.mod_eq_of_lt (by simpa [UINT_WRAP] using hlt)

/-- Witness for claim C9's theorem at a concrete call count: call 7 does
not carry the banner. -/
theorem C9_witness : counterAfter 7 ≠ 1 :=
  C9_counter_wrap.2.2.2.1 7 (by decide) (by decide)

/-- Claim C10: `CREATE_ERROR` stores the first `MAX_TAG_SIZE - 1`
characters of the tag and the first `MAX_DESC_SIZE - 1` characters of the
rendered description, so both struct fields stay within their bounds
(tag at most 16 bytes and desc at most 128 bytes, each including the NUL
terminator), longer inputs being truncated rather than overflowing, and
the result code is stored unchanged. -/
theorem C10_create_error_bounds (res : dev_err) (tagArg descRendered : CStr) :
    (CREATE_ERROR res tagArg descRendered).tag = tagArg.take (MAX_TAG_SIZE - 1) ∧
    (CREATE_ERROR res tagArg descRendered).tag.length ≤ MAX_TAG_SIZE - 1 ∧
    (CREATE_ERROR res tagArg descRendered).desc =
      descRendered.take (MAX_DESC_SIZE - 1) ∧
    (CREATE_ERROR res tagArg descRendered).desc.length ≤ MAX_DESC_SIZE - 1 ∧
    (CREATE_ERROR res tagArg descRendered).res = res := by
  refine ⟨rfl, ?_, rfl, ?_, rfl⟩ <;>
    simp [CREATE_ERROR, MAX_TAG_SIZE, MAX_DESC_SIZE, List.length_take]
